import Mathlib

/-!
Verification of the relational-operator opcode module of a zkWASM-style circuit
(`src/circuits/config_builder/op_rel.rs`).

The module's halo2 expressions are shallowly embedded: a row of the event table
is a record of field values, one per cell the module reads, and every gate
polynomial, memory-table lookup tuple and interface expression (`opcode`,
`sp_diff`, `assign`) is translated into a function of that record, generic over
the field (the source is generic over `FieldExt`; the tests instantiate the
BN254 scalar field).
-/

namespace ZkWasmRel

/-- Modelled from the spec: the opcode-class shift constant `OPCODE_CLASS_SHIFT`
lives in the `specs` crate (`itable`), which is not among the provided sources.
The value is chosen to satisfy the spec's requirement that each shift width
exceed the bit-width of the constituent packed below it. -/
def OPCODE_CLASS_SHIFT : Nat := 96

/-- Modelled from the spec: the `OPCODE_ARG0_SHIFT` constant of the `specs`
crate, giving `arg0` (the sub-operation discriminant) a 16-bit lane below the
class tag. -/
def OPCODE_ARG0_SHIFT : Nat := 80

/-- Modelled from the spec: the `OPCODE_ARG1_SHIFT` constant of the `specs`
crate, giving `arg1` (the secondary discriminant, the operand type tag here) a
16-bit lane below `arg0`. -/
def OPCODE_ARG1_SHIFT : Nat := 64

/-- Modelled from the spec: the opcode-class enumeration of the `specs` crate.
Only the relational class is used by this module; its numeric discriminant is a
representative small value, as the spec fixes only that classes are distinct
small tags. -/
inductive OpcodeClass where
  | Rel
  deriving DecidableEq

/-- Numeric discriminant of an opcode class (`OpcodeClass::Rel as u64`). -/
def OpcodeClass.toNat : OpcodeClass → Nat
  | .Rel => 6

/-- Modelled from the spec: the relational sub-operation enumeration `RelOp` of
the `specs` crate; the spec's injectivity invariant requires the two
discriminants to be distinct small values. -/
inductive RelOp where
  | Eq
  | Ne
  deriving DecidableEq

/-- Numeric discriminant of a relational sub-operation (`RelOp::Eq as u64`,
`RelOp::Ne as u64`). -/
def RelOp.toNat : RelOp → Nat
  | .Eq => 0
  | .Ne => 1

/-- Modelled from the spec: the operand type tags (`VarType` in the `specs`
crate) — a small enumerated encoding covering 32-bit integer, 64-bit integer
and boolean. -/
inductive VarType where
  | I32
  | I64
  | Bool
  deriving DecidableEq

/-- Numeric encoding of a type tag (`VarType::... as u64`). -/
def VarType.toNat : VarType → Nat
  | .I32 => 0
  | .I64 => 1
  | .Bool => 2

/-- One event-table row as seen by the relational-operator module: the value of
every cell its gates, lookups and interface expressions read at the current
rotation. `opcode_bit` is the column passed to `configure` as `opcode_bit` and
stored in the config field named `enable`; the field `enable` below is the
value of the common row-enable predicate `enable(meta)` threaded through
`configure`. -/
structure RelOpRow (F : Type) where
  eid : F
  sp : F
  opcode_bit : F
  enable : F
  is_eq : F
  is_ne : F
  res : F
  left_vtype : F
  left_value : F
  right_vtype : F
  right_value : F
  deriving DecidableEq

/-- Conversion of a `BigUint` constant into a field element (`bn_to_field`). -/
def bn_to_field {F : Type} [CommRing F] (n : Nat) : F := (n : F)

/-- The polynomials of the gate created as `"is eq or ne"`: booleanity of
`is_eq` and of `is_ne`, and the partition `is_eq + is_ne = 1`, each scaled by
the row-enable predicate. -/
def gate_is_eq_or_ne {F : Type} [CommRing F] (r : RelOpRow F) : List F :=
  [r.is_eq * (r.is_eq - 1) * r.enable,
    r.is_ne * (r.is_ne - 1) * r.enable,
    (r.is_eq + r.is_ne - 1) * r.enable]

/-- The polynomial of the gate created as `"res is bool"`: booleanity of `res`,
scaled by the row-enable predicate. -/
def gate_res_is_bool {F : Type} [CommRing F] (r : RelOpRow F) : List F :=
  [r.res * (r.res - 1) * r.enable]

/-- The polynomial of the gate created as `"op bin vtype constrains"`: equality
of the two operand type tags, scaled by the row-enable predicate. -/
def gate_vtype_constrains {F : Type} [CommRing F] (r : RelOpRow F) : List F :=
  [(r.left_vtype - r.right_vtype) * r.enable]

/-- A list of gate polynomials is satisfied on a row when every polynomial
evaluates to zero there. -/
def gatesHold {F : Type} [CommRing F] (g : List F) : Prop := ∀ x ∈ g, x = 0

/-- Kind of a memory-table access contributed by an opcode module. -/
inductive MAccessKind where
  | read
  | write
  deriving DecidableEq

/-- One row contributed to the shared memory-table lookup relation:
`(enable, eid, access_index, address, vtype, value)` plus the read/write kind
of the contract invoked. -/
structure MLookupRow (F : Type) where
  kind : MAccessKind
  enable : F
  eid : F
  access_index : F
  address : F
  vtype : F
  value : F
  deriving DecidableEq

/-- The activation predicate handed to both typed-value slots
(`curr(opcode_bit) * enable`). -/
def tvalue_activation {F : Type} [CommRing F] (r : RelOpRow F) : F :=
  r.opcode_bit * r.enable

/-- The first `configure_stack_read_in_table` call: read the right operand,
access index 1, at address `sp - 1`, carrying the right slot's type and value;
activated by `opcode_bit * enable`. -/
def mlookup_right {F : Type} [CommRing F] (r : RelOpRow F) : MLookupRow F :=
  ⟨.read, r.opcode_bit * r.enable, r.eid, 1, r.sp - 1, r.right_vtype, r.right_value⟩

/-- The second `configure_stack_read_in_table` call: read the left operand,
access index 2, at address `sp - 2`, carrying the left slot's type and value;
activated by `opcode_bit * enable`. -/
def mlookup_left {F : Type} [CommRing F] (r : RelOpRow F) : MLookupRow F :=
  ⟨.read, r.opcode_bit * r.enable, r.eid, 2, r.sp - 2, r.left_vtype, r.left_value⟩

/-- The `configure_stack_write_in_table` call: write the result, access index
3, at address `sp - 2`, carrying the constant `VarType::Bool` tag and the `res`
cell; activated by `opcode_bit * enable`. -/
def mlookup_res {F : Type} [CommRing F] (r : RelOpRow F) : MLookupRow F :=
  ⟨.write, r.opcode_bit * r.enable, r.eid, 3, r.sp - 2, (VarType.Bool.toNat : F), r.res⟩

/-- All memory-table rows the relational module contributes for one step. -/
def relOpMLookups {F : Type} [CommRing F] (r : RelOpRow F) : List (MLookupRow F) :=
  [mlookup_right r, mlookup_left r, mlookup_res r]

/-- The module's `opcode` interface expression, translated term by term from
`RelOpConfig::opcode`: the class constant plus the selector-weighted `RelOp`
constants plus the type tag shifted into the `arg1` lane, all multiplied by the
cell of the config's `enable` field (the opcode selector column). -/
def RelOpConfig.opcode {F : Type} [CommRing F] (r : RelOpRow F) : F :=
  (bn_to_field (OpcodeClass.Rel.toNat <<< OPCODE_CLASS_SHIFT)
      + r.is_eq * bn_to_field (RelOp.Eq.toNat <<< OPCODE_ARG0_SHIFT)
      + r.is_ne * bn_to_field (RelOp.Ne.toNat <<< OPCODE_ARG0_SHIFT)
      + r.left_vtype * bn_to_field (1 <<< OPCODE_ARG1_SHIFT))
    * r.opcode_bit

/-- The module's `sp_diff` interface expression, translated from
`RelOpConfig::sp_diff`: the constant one times the cell of the config's
`enable` field (the opcode selector column). -/
def RelOpConfig.sp_diff {F : Type} [CommRing F] (r : RelOpRow F) : F :=
  1 * r.opcode_bit

/-- The module's `opcode_class` interface value. -/
def RelOpConfig.opcode_class : OpcodeClass := .Rel

/-- The general opcode packing scheme of the spec, in the additive form the
in-source module uses (the constituents occupy disjoint bit lanes, so addition
coincides with bitwise or on the valid domain). -/
def opcodeEncode (cls arg0 arg1 : Nat) : Nat :=
  (cls <<< OPCODE_CLASS_SHIFT) + (arg0 <<< OPCODE_ARG0_SHIFT) + (arg1 <<< OPCODE_ARG1_SHIFT)

/-- Modelled from the spec: the step payload variants of the `specs` crate's
`StepInfo` relevant to this module — the integer-comparison variant matched by
`assign`, and a stand-in for every other variant (which `assign` treats as
unreachable). -/
inductive StepInfo where
  | I32Comp (left : Int) (right : Int) (value : Bool)
  | Other
  deriving DecidableEq

/-- Modelled from the spec: an execution-trace entry of the `specs` crate;
only the payload field is inspected by this module's `assign`. -/
structure EventTableEntry where
  eid : Nat
  sp : Nat
  step_info : StepInfo
  deriving DecidableEq

/-- Outcome of running `RelOpConfig::assign` on one entry: normal return,
abort through the `todo` panic, or abort through the `unreachable` panic. -/
inductive AssignOutcome where
  | ok
  | panicTodo
  | panicUnreachable
  deriving DecidableEq

/-- Translation of `RelOpConfig::assign`: the integer-comparison arm hits
`todo` before the `Ok(())` at the end of the function can be reached, and every
other payload variant hits `unreachable`. -/
def RelOpConfig.assign (entry : EventTableEntry) : AssignOutcome :=
  match entry.step_info with
  | .I32Comp _ _ _ => .panicTodo
  | .Other => .panicUnreachable

instance : Fact (Nat.Prime 97) := ⟨by norm_num⟩

/-- A concrete active row over the field with 97 elements: the opcode selector
and the row-enable predicate are both 1, `is_eq = 1`, `is_ne = 0`, both
operands carry the 32-bit tag. -/
def row97 : RelOpRow (ZMod 97) :=
  ⟨0, 5, 1, 1, 1, 0, 1, 0, 1, 0, 2⟩

/-- A concrete row over the field with 97 elements whose opcode selector is 0
while the row-enable predicate is 1: the row is enabled but owned by another
opcode module. -/
def row97off : RelOpRow (ZMod 97) :=
  ⟨0, 5, 0, 1, 1, 0, 1, 0, 1, 0, 2⟩

/-- A concrete disabled row over the field with 97 elements (enable 0) with
arbitrary junk in every other column. -/
def row97disabled : RelOpRow (ZMod 97) :=
  ⟨3, 7, 1, 0, 5, 9, 42, 13, 2, 77, 8⟩

/-- Satisfaction of a literal three-element gate list is the conjunction of the
three polynomial identities. -/
theorem gatesHold_triple {F : Type} [CommRing F] (a b c : F) :
    gatesHold [a, b, c] ↔ a = 0 ∧ b = 0 ∧ c = 0 := by
  simp [gatesHold]

/-- Satisfaction of a literal one-element gate list is the single polynomial
identity. -/
theorem gatesHold_single {F : Type} [CommRing F] (a : F) :
    gatesHold [a] ↔ a = 0 := by
  simp [gatesHold]

/-- A booleanity gate polynomial scaled by a nonzero enable predicate vanishes
exactly on the values 0 and 1. -/
theorem bool_gate_iff {F : Type} [Field F] {x e : F} (he : e ≠ 0) :
    x * (x - 1) * e = 0 ↔ x = 0 ∨ x = 1 := by
  rw [mul_eq_zero, mul_eq_zero, sub_eq_zero]
  simp [he]

/-- A linear gate polynomial scaled by a nonzero enable predicate vanishes
exactly when the unscaled polynomial does. -/
theorem lin_gate_iff {F : Type} [Field F] {x e : F} (he : e ≠ 0) :
    x * e = 0 ↔ x = 0 := by
  simp [mul_eq_zero, he]

/-- The spec-side description of the boolean and partition constraints on the
selector and result cells (spec §4.3, gates 1-3). -/
def spec_bool_gates {F : Type} [CommRing F] (r : RelOpRow F) : Prop :=
  (r.is_eq = 0 ∨ r.is_eq = 1) ∧ (r.is_ne = 0 ∨ r.is_ne = 1)
    ∧ r.is_eq + r.is_ne = 1 ∧ (r.res = 0 ∨ r.res = 1)

/-- C1 (amended): for every row, the module's `sp_diff` expression equals +1
times the module's enable bit (the opcode selector column the config stores in
its `enable` field): it evaluates to 1 on an active row and to 0 on an
inactive row. -/
theorem C1_sp_diff_is_plus_one_times_enable {F : Type} [Field F] (r : RelOpRow F) :
    RelOpConfig.sp_diff r = 1 * r.opcode_bit
      ∧ (r.opcode_bit = 0 → RelOpConfig.sp_diff r = 0)
      ∧ (r.opcode_bit = 1 → RelOpConfig.sp_diff r = 1) := by
  refine ⟨rfl, ?_, ?_⟩ <;> intro h <;> simp [RelOpConfig.sp_diff, h]

/-- C1 witness: on the concrete active row the amended statement evaluates:
`sp_diff` is 1 times the enable bit, concretely 1. -/
theorem C1_sp_diff_witness :
    RelOpConfig.sp_diff row97 = 1 * row97.opcode_bit ∧ RelOpConfig.sp_diff row97 = 1 :=
  ⟨(C1_sp_diff_is_plus_one_times_enable row97).1,
    (C1_sp_diff_is_plus_one_times_enable row97).2.2 (by decide)⟩

/-- C1 counterexample: on the concrete active row over the field with 97
elements, `sp_diff` evaluates to 1, not to -1 times the enable bit (which is
96): the claimed sign is refuted on the code as written. -/
theorem C1_sp_diff_counterexample :
    RelOpConfig.sp_diff row97 ≠ -1 * row97.opcode_bit := by
  decide

/-- C5: on a row whose enable predicate is nonzero, the `"is eq or ne"` and
`"res is bool"` gates are satisfied exactly when `is_eq` and `is_ne` are each 0
or 1 with `is_eq + is_ne = 1` and `res` is 0 or 1; in particular forcing
`is_eq = 1` and `is_ne = 1` simultaneously is rejected. -/
theorem C5_boolean_gate_soundness {F : Type} [Field F] (r : RelOpRow F)
    (he : r.enable ≠ 0) :
    (gatesHold (gate_is_eq_or_ne r) ∧ gatesHold (gate_res_is_bool r)
        ↔ spec_bool_gates r)
      ∧ ¬(gatesHold (gate_is_eq_or_ne r) ∧ r.is_eq = 1 ∧ r.is_ne = 1) := by
  have hmain : gatesHold (gate_is_eq_or_ne r) ∧ gatesHold (gate_res_is_bool r)
      ↔ spec_bool_gates r := by
    rw [gate_is_eq_or_ne, gate_res_is_bool, gatesHold_triple, gatesHold_single,
      bool_gate_iff he, bool_gate_iff he, bool_gate_iff he, lin_gate_iff he,
      sub_eq_zero, spec_bool_gates]
    tauto
  refine ⟨hmain, ?_⟩
  rintro ⟨hg, h1, h2⟩
  have h3 : (r.is_eq + r.is_ne - 1) * r.enable = 0 := by
    exact ((gatesHold_triple _ _ _).mp (by simpa [gate_is_eq_or_ne] using hg)).2.2
  rw [lin_gate_iff he, sub_eq_zero, h1, h2] at h3
  have : (1 : F) = 0 := by linear_combination h3
  exact one_ne_zero this

/-- C5 witness: the equivalence and the rejection of the double-selector
assignment, evaluated on the concrete active row. -/
theorem C5_boolean_gate_witness :
    (gatesHold (gate_is_eq_or_ne row97) ∧ gatesHold (gate_res_is_bool row97)
        ↔ spec_bool_gates row97)
      ∧ ¬(gatesHold (gate_is_eq_or_ne row97) ∧ row97.is_eq = 1 ∧ row97.is_ne = 1) :=
  C5_boolean_gate_soundness row97 (by decide)

/-- C6: on a row whose enable predicate is nonzero, the `"op bin vtype
constrains"` gate is satisfied exactly when the two operand type tags are
equal. -/
theorem C6_vtype_agreement {F : Type} [Field F] (r : RelOpRow F)
    (he : r.enable ≠ 0) :
    gatesHold (gate_vtype_constrains r) ↔ r.left_vtype = r.right_vtype := by
  rw [gate_vtype_constrains, gatesHold_single, lin_gate_iff he, sub_eq_zero]

/-- C6 witness: the equivalence evaluated on the concrete active row, where
both tags are the 32-bit tag. -/
theorem C6_vtype_agreement_witness :
    gatesHold (gate_vtype_constrains row97) ↔ row97.left_vtype = row97.right_vtype :=
  C6_vtype_agreement row97 (by decide)

/-- C7: every gate polynomial the module creates carries the row-enable factor,
so on a disabled row all of them vanish for every value of the module's
columns. -/
theorem C7_disabled_rows_unconstrained {F : Type} [CommRing F] (r : RelOpRow F)
    (he : r.enable = 0) :
    gatesHold (gate_is_eq_or_ne r) ∧ gatesHold (gate_res_is_bool r)
      ∧ gatesHold (gate_vtype_constrains r) := by
  refine ⟨?_, ?_, ?_⟩ <;>
    simp [gatesHold, gate_is_eq_or_ne, gate_res_is_bool, gate_vtype_constrains, he]

/-- C7 witness: on the concrete disabled row carrying junk values, all three
gate lists are satisfied. -/
theorem C7_disabled_rows_witness :
    gatesHold (gate_is_eq_or_ne row97disabled) ∧ gatesHold (gate_res_is_bool row97disabled)
      ∧ gatesHold (gate_vtype_constrains row97disabled) :=
  C7_disabled_rows_unconstrained row97disabled (by decide)

/-- The spec-side description of the three memory-table rows an active
relational step must emit (spec §4.3): a read of the right operand with access
index 1 at `sp - 1`, a read of the left operand with access index 2 at
`sp - 2`, and a write of the boolean result with access index 3 at `sp - 2`,
each with a nonzero activation predicate. -/
def spec_active_lookups {F : Type} [CommRing F] (r : RelOpRow F) : Prop :=
  ((mlookup_right r).enable ≠ 0 ∧ (mlookup_right r).kind = MAccessKind.read
      ∧ (mlookup_right r).eid = r.eid ∧ (mlookup_right r).access_index = 1
      ∧ (mlookup_right r).address = r.sp - 1
      ∧ (mlookup_right r).vtype = r.right_vtype
      ∧ (mlookup_right r).value = r.right_value)
    ∧ ((mlookup_left r).enable ≠ 0 ∧ (mlookup_left r).kind = MAccessKind.read
      ∧ (mlookup_left r).eid = r.eid ∧ (mlookup_left r).access_index = 2
      ∧ (mlookup_left r).address = r.sp - 2
      ∧ (mlookup_left r).vtype = r.left_vtype
      ∧ (mlookup_left r).value = r.left_value)
    ∧ ((mlookup_res r).enable ≠ 0 ∧ (mlookup_res r).kind = MAccessKind.write
      ∧ (mlookup_res r).eid = r.eid ∧ (mlookup_res r).access_index = 3
      ∧ (mlookup_res r).address = r.sp - 2
      ∧ (mlookup_res r).vtype = (VarType.Bool.toNat : F)
      ∧ (mlookup_res r).value = r.res)

/-- C2: the module contributes exactly three memory-table rows per step; when
the opcode bit and the enable predicate are both nonzero they are the two
stack reads (access indices 1 and 2, addresses `sp - 1` and `sp - 2`, carrying
the right and left typed values) and the stack write of the boolean result
(access index 3, address `sp - 2`); when the opcode bit or the enable
predicate vanishes, all three activation predicates are zero. -/
theorem C2_memory_lookups {F : Type} [Field F] (r : RelOpRow F) :
    (relOpMLookups r).length = 3
      ∧ (r.opcode_bit ≠ 0 → r.enable ≠ 0 → spec_active_lookups r)
      ∧ (r.opcode_bit = 0 ∨ r.enable = 0 →
          (mlookup_right r).enable = 0 ∧ (mlookup_left r).enable = 0
            ∧ (mlookup_res r).enable = 0) := by
  refine ⟨rfl, ?_, ?_⟩
  · intro hb he
    exact ⟨⟨mul_ne_zero hb he, rfl, rfl, rfl, rfl, rfl, rfl⟩,
      ⟨mul_ne_zero hb he, rfl, rfl, rfl, rfl, rfl, rfl⟩,
      ⟨mul_ne_zero hb he, rfl, rfl, rfl, rfl, rfl, rfl⟩⟩
  · rintro (h | h) <;>
      simp [mlookup_right, mlookup_left, mlookup_res, h]

/-- C2 witness: the three active rows are emitted on the concrete active row,
and all three activations vanish on the concrete row owned by another module. -/
theorem C2_memory_lookups_witness :
    (relOpMLookups row97).length = 3 ∧ spec_active_lookups row97
      ∧ ((mlookup_right row97off).enable = 0 ∧ (mlookup_left row97off).enable = 0
          ∧ (mlookup_res row97off).enable = 0) :=
  ⟨(C2_memory_lookups row97).1,
    (C2_memory_lookups row97).2.1 (by decide) (by decide),
    (C2_memory_lookups row97off).2.2 (Or.inl (by decide))⟩

/-- The opcode-encoding expression exactly as the spec sentence for this module
phrases it: class constant, the two selector-weighted sub-opcode constants, the
type tag weighted by the `arg1` lane unit, all times the module's enable bit. -/
def spec_rel_opcode {F : Type} [CommRing F] (r : RelOpRow F) : F :=
  (((OpcodeClass.Rel.toNat <<< OPCODE_CLASS_SHIFT : Nat) : F)
      + r.is_eq * ((RelOp.Eq.toNat <<< OPCODE_ARG0_SHIFT : Nat) : F)
      + r.is_ne * ((RelOp.Ne.toNat <<< OPCODE_ARG0_SHIFT : Nat) : F)
      + r.left_vtype * ((1 <<< OPCODE_ARG1_SHIFT : Nat) : F))
    * r.opcode_bit

/-- C3: the module's `opcode` expression is precisely the packed combination
claimed, times the enable bit; it vanishes on a row where the module is
inactive, and on an active, gate-satisfying row it reproduces the general
packing scheme applied to the selected sub-opcode and the operand type tag. -/
theorem C3_opcode_expression {F : Type} [CommRing F] (r : RelOpRow F) :
    RelOpConfig.opcode r = spec_rel_opcode r
      ∧ (r.opcode_bit = 0 → RelOpConfig.opcode r = 0)
      ∧ (∀ v : VarType, r.opcode_bit = 1 → r.left_vtype = (v.toNat : F) →
          (r.is_eq = 1 → r.is_ne = 0 →
            RelOpConfig.opcode r
              = ((opcodeEncode OpcodeClass.Rel.toNat RelOp.Eq.toNat v.toNat : Nat) : F))
          ∧ (r.is_eq = 0 → r.is_ne = 1 →
            RelOpConfig.opcode r
              = ((opcodeEncode OpcodeClass.Rel.toNat RelOp.Ne.toNat v.toNat : Nat) : F))) := by
  refine ⟨rfl, ?_, ?_⟩
  · intro h
    simp [RelOpConfig.opcode, h]
  · intro v hb hv
    constructor <;> intro h1 h2 <;>
      · simp only [RelOpConfig.opcode, bn_to_field, opcodeEncode, hb, hv, h1, h2,
          Nat.shiftLeft_eq, RelOp.toNat, OpcodeClass.toNat]
        push_cast
        ring

/-- C3 witness: on the concrete active row (equality selected, 32-bit tag) the
opcode expression equals the spec formula and evaluates to the packed encoding
of (Rel, Eq, I32). -/
theorem C3_opcode_expression_witness :
    RelOpConfig.opcode row97 = spec_rel_opcode row97
      ∧ RelOpConfig.opcode row97
          = ((opcodeEncode OpcodeClass.Rel.toNat RelOp.Eq.toNat VarType.I32.toNat : Nat)
              : ZMod 97) :=
  ⟨(C3_opcode_expression row97).1,
    ((C3_opcode_expression row97).2.2 VarType.I32 (by decide) (by decide)).1
      (by decide) (by decide)⟩

/-- C4: the packed encoding is injective on this module's valid domain: with
the class fixed to the relational tag, two gate-reachable pairs of sub-opcode
and operand type tag that differ in either component give distinct field
elements, in any ring whose characteristic exceeds the packed values. -/
theorem C4_encoding_injective {R : Type} [CommRing R] (p : ℕ) [CharP R p]
    (hp : 2 ^ 112 ≤ p) (a b : RelOp) (v w : VarType)
    (hne : ¬(a = b ∧ v = w)) :
    ((opcodeEncode OpcodeClass.Rel.toNat a.toNat v.toNat : Nat) : R)
      ≠ ((opcodeEncode OpcodeClass.Rel.toNat b.toNat w.toNat : Nat) : R) := by
  intro hcast
  have hlt1 : opcodeEncode OpcodeClass.Rel.toNat a.toNat v.toNat < 2 ^ 112 := by
    rcases a <;> rcases v <;> decide
  have hlt2 : opcodeEncode OpcodeClass.Rel.toNat b.toNat w.toNat < 2 ^ 112 := by
    rcases b <;> rcases w <;> decide
  have hnat : opcodeEncode OpcodeClass.Rel.toNat a.toNat v.toNat
      = opcodeEncode OpcodeClass.Rel.toNat b.toNat w.toNat :=
    CharP.natCast_injOn_Iio R p (lt_of_lt_of_le hlt1 hp) (lt_of_lt_of_le hlt2 hp) hcast
  apply hne
  revert hnat
  rcases a <;> rcases b <;> rcases v <;> rcases w <;> decide

/-- C4 witness: in the ring of integers modulo 2^128 (characteristic 2^128,
large enough for the packed values), the encodings of (Rel, Eq, I32) and
(Rel, Ne, I32) are distinct field elements. -/
theorem C4_encoding_injective_witness :
    2 ^ 112 ≤ 2 ^ 128 ∧ ¬(RelOp.Eq = RelOp.Ne ∧ VarType.I32 = VarType.I32)
      ∧ ((opcodeEncode OpcodeClass.Rel.toNat RelOp.Eq.toNat VarType.I32.toNat : Nat)
            : ZMod (2 ^ 128))
          ≠ ((opcodeEncode OpcodeClass.Rel.toNat RelOp.Ne.toNat VarType.I32.toNat : Nat)
            : ZMod (2 ^ 128)) :=
  ⟨by norm_num, by decide,
    C4_encoding_injective (2 ^ 128) (by norm_num) RelOp.Eq RelOp.Ne VarType.I32 VarType.I32
      (by decide)⟩

/-- A concrete integer-comparison trace entry. -/
def entryComp : EventTableEntry := ⟨1, 2, StepInfo.I32Comp 1 2 true⟩

/-- A concrete trace entry whose payload is some other opcode's variant. -/
def entryOther : EventTableEntry := ⟨1, 2, StepInfo.Other⟩

/-- C8: the assignment routine never completes successfully on any trace
entry: an integer-comparison payload aborts through the unimplemented-stub
panic, and every other payload variant aborts through the unreachable panic
guarding internal consistency. -/
theorem C8_assign_never_succeeds (e : EventTableEntry) :
    RelOpConfig.assign e ≠ AssignOutcome.ok
      ∧ (∀ l rr v, e.step_info = StepInfo.I32Comp l rr v →
          RelOpConfig.assign e = AssignOutcome.panicTodo)
      ∧ (e.step_info = StepInfo.Other →
          RelOpConfig.assign e = AssignOutcome.panicUnreachable) := by
  rcases e with ⟨eid, sp, si⟩
  rcases si <;> simp [RelOpConfig.assign]

/-- C8 witness: the two outcomes evaluated on concrete entries of both payload
shapes. -/
theorem C8_assign_never_succeeds_witness :
    RelOpConfig.assign entryComp = AssignOutcome.panicTodo
      ∧ RelOpConfig.assign entryOther = AssignOutcome.panicUnreachable :=
  ⟨(C8_assign_never_succeeds entryComp).2.1 1 2 true rfl,
    (C8_assign_never_succeeds entryOther).2.2 rfl⟩

/-- C9: evaluation at the failing input: on a concrete integer-comparison
entry the assignment routine aborts through the unimplemented-stub panic, and
on any other payload through the unreachable panic, instead of returning a
success or error value as the totality contract requires. -/
theorem C9_assign_aborts_instead_of_returning :
    RelOpConfig.assign entryComp = AssignOutcome.panicTodo
      ∧ AssignOutcome.panicTodo ≠ AssignOutcome.ok
      ∧ RelOpConfig.assign entryOther = AssignOutcome.panicUnreachable
      ∧ AssignOutcome.panicUnreachable ≠ AssignOutcome.ok := by
  decide

/-- C10: the module's gate polynomials read only the row-enable predicate, not
the opcode selector: replacing the selector value leaves every gate polynomial
unchanged, so on every enabled row — including rows owned by other opcode
modules — gate satisfaction still forces the boolean, partition and
type-agreement constraints on this module's columns; by contrast the three
memory lookups and the typed-value slots, activated by selector times enable,
all switch off when the selector is zero. -/
theorem C10_gates_not_scaled_by_selector {F : Type} [Field F] :
    (∀ (r : RelOpRow F) (b : F),
        gate_is_eq_or_ne { r with opcode_bit := b } = gate_is_eq_or_ne r
          ∧ gate_res_is_bool { r with opcode_bit := b } = gate_res_is_bool r
          ∧ gate_vtype_constrains { r with opcode_bit := b } = gate_vtype_constrains r)
      ∧ (∀ r : RelOpRow F, r.enable ≠ 0 →
          (gatesHold (gate_is_eq_or_ne r) ∧ gatesHold (gate_res_is_bool r)
              ∧ gatesHold (gate_vtype_constrains r)
            ↔ spec_bool_gates r ∧ r.left_vtype = r.right_vtype))
      ∧ (∀ r : RelOpRow F, r.opcode_bit = 0 →
          (mlookup_right r).enable = 0 ∧ (mlookup_left r).enable = 0
            ∧ (mlookup_res r).enable = 0 ∧ tvalue_activation r = 0) := by
  refine ⟨fun r b => ⟨rfl, rfl, rfl⟩, ?_, ?_⟩
  · intro r he
    rw [gate_is_eq_or_ne, gate_res_is_bool, gate_vtype_constrains,
      gatesHold_triple, gatesHold_single, gatesHold_single,
      bool_gate_iff he, bool_gate_iff he, bool_gate_iff he,
      lin_gate_iff he, lin_gate_iff he, sub_eq_zero, sub_eq_zero, spec_bool_gates]
    tauto
  · intro r hb
    simp [mlookup_right, mlookup_left, mlookup_res, tvalue_activation, hb]

/-- C10 witness: evaluated over the field with 97 elements: the gates of the
row owned by another module (selector 0, enable 1) are insensitive to the
selector and still equivalent to the constraints, while its lookups and
typed-value slots are switched off. -/
theorem C10_gates_not_scaled_by_selector_witness :
    (gate_is_eq_or_ne { row97off with opcode_bit := 55 } = gate_is_eq_or_ne row97off)
      ∧ (gatesHold (gate_is_eq_or_ne row97off) ∧ gatesHold (gate_res_is_bool row97off)
            ∧ gatesHold (gate_vtype_constrains row97off)
          ↔ spec_bool_gates row97off ∧ row97off.left_vtype = row97off.right_vtype)
      ∧ ((mlookup_right row97off).enable = 0 ∧ (mlookup_left row97off).enable = 0
          ∧ (mlookup_res row97off).enable = 0 ∧ tvalue_activation row97off = 0) :=
  ⟨(C10_gates_not_scaled_by_selector.1 row97off 55).1,
    C10_gates_not_scaled_by_selector.2.1 row97off (by decide),
    C10_gates_not_scaled_by_selector.2.2 row97off (by decide)⟩

end ZkWasmRel
